import Mathlib

/-!
# Verification of the Retail POS system's sale / invoice settlement flow

Shallow embedding of the Django application's core business logic:

* `catalog/models.py` — `Product.can_sell`, `Product.adjust_stock`,
  `Product.get_price_for_customer`, `InventoryAdjustment`, `Coupon.is_valid`,
  `Coupon.calculate_discount`;
* `customers/models.py` — `Customer`;
* `pos/models.py` — `Sale`, `SaleItem`, `Payment`, `Sale.calculate_totals`,
  `Sale.complete_sale`, `Sale.void_sale`;
* `pos/views.py` — `SaleViewSet.create_sale` (the settlement policy);
* `wholesale/models.py` — `Invoice`, `InvoicePayment`,
  `Invoice.generate_invoice_number`, `Invoice.update_payment_status`,
  `Invoice.save`;
* `wholesale/views.py` — `invoice_record_payment`, `invoice_cancel`.

Conventions of the embedding:

* Python `Decimal` amounts become `Rat` (decimal arithmetic on these fields is
  exact rational arithmetic: `+`, `-`, `*` by `0.5`, comparisons).
* Database rows become Lean structures; a keyed table becomes a total map
  (`Nat → Product`) or a list of rows; timestamps/dates become `Nat`.
* `@transaction.atomic` in Django rolls back only when an *exception* escapes
  the wrapped function.  `create_sale` signals business-rule rejections by
  *returning* an HTTP 400 response, which exits the atomic block normally and
  therefore COMMITS everything written so far.  The embedding mirrors this:
  every step threads the database state, and each return path reports the
  state that is committed at that return.  Exception paths (which do roll
  back) are modelled by returning the original, unmodified state.
-/

/-! ## Catalog store (`src/catalog/models.py`) -/

/-- `catalog.models.Product` — the fields the core flow reads/writes.
`stock` is an `Int`: the Django column is an `IntegerField`; its
`MinValueValidator(0)` is *not* enforced on `save()`. -/
structure Product where
  id : Nat
  sku : String
  stock : Int
  track_stock : Bool
  is_active : Bool
  sell_price : Rat
  wholesale_price : Option Rat
  minimum_wholesale_quantity : Nat
  tax_rate : Rat
  deriving Repr, DecidableEq

/-- `catalog.models.InventoryAdjustment` — immutable audit record appended by
`Product.adjust_stock`. -/
structure InventoryAdjustment where
  product_id : Nat
  quantity_change : Int
  old_stock : Int
  new_stock : Int
  reason : String
  performed_by : String
  deriving Repr, DecidableEq

/-- `Product.can_sell(quantity)`:
`if not self.is_active: return False`;
`if self.track_stock and self.stock < quantity: return False`; else `True`. -/
def Product.can_sell (p : Product) (quantity : Nat) : Bool :=
  if ¬ p.is_active then false
  else if p.track_stock ∧ p.stock < (quantity : Int) then false
  else true

/-- `Product.adjust_stock(quantity, reason, performed_by)`:
`old_stock = self.stock; self.stock += quantity; self.save()`, then creates one
`InventoryAdjustment(old_stock, new_stock=self.stock, ...)`.  There is no check
that the resulting stock is non-negative. -/
def Product.adjust_stock (p : Product) (quantity : Int) (reason performed_by : String) :
    Product × InventoryAdjustment :=
  let old_stock := p.stock
  let p' := { p with stock := p.stock + quantity }
  (p', { product_id := p.id
         quantity_change := quantity
         old_stock := old_stock
         new_stock := p'.stock
         reason := reason
         performed_by := performed_by })

/-! ## Customers (`src/customers/models.py`) -/

/-- `customers.models.Customer` — the fields the sale flow reads/writes.
`customer_type` is the stored choice string: `"retail"`, `"wholesale"` or
`"vip"` (default `"retail"`). -/
structure Customer where
  phone : String
  name : String
  email : String
  customer_type : String
  discount_percentage : Rat
  credit_limit : Rat
  current_balance : Rat
  is_active : Bool
  deriving Repr, DecidableEq

/-- `Product.get_price_for_customer(customer, quantity)` → `(price, price_type)`.
Retail price by default; wholesale tier when the customer is wholesale, the
product has a truthy, positive wholesale price and the quantity meets the
minimum; then a further customer percentage discount on the selected tier
price.  (The source's label interpolates the percentage into the string —
`f'{price_type} +{discount_percentage}% discount'`; the embedding keeps the
constant part of the label, which no caller branches on.) -/
def Product.get_price_for_customer (p : Product) (customer : Option Customer)
    (quantity : Nat) : Rat × String :=
  let price := p.sell_price
  let price_type := "retail"
  let (price, price_type) :=
    match customer with
    | some c =>
      if c.customer_type = "wholesale" then
        match p.wholesale_price with
        | some wp =>
          if 0 < wp ∧ p.minimum_wholesale_quantity ≤ quantity then
            (wp, "wholesale")
          else (price, price_type)
        | none => (price, price_type)
      else (price, price_type)
    | none => (price, price_type)
  match customer with
  | some c =>
    if 0 < c.discount_percentage then
      (price - price * (c.discount_percentage / 100),
       price_type ++ " +discount")
    else (price, price_type)
  | none => (price, price_type)

/-- `catalog.models.Coupon` — validity window bounds and usage counters are
modelled over an abstract clock (`Nat` instants).  `usage_limit` is a nullable
integer; Python's truthiness test `if self.usage_limit` is false both for
`None` and for `0`. -/
structure Coupon where
  code : String
  discount_type : String
  discount_value : Rat
  min_purchase : Rat
  max_discount : Option Rat
  valid_from : Nat
  valid_to : Nat
  is_active : Bool
  usage_limit : Option Int
  times_used : Int
  deriving Repr, DecidableEq

/-- The condition `self.usage_limit and self.times_used >= self.usage_limit`:
truthiness of `usage_limit` (false for `None` and for `0`) conjoined with the
counter comparison. -/
def Coupon.usage_exhausted (c : Coupon) : Bool :=
  match c.usage_limit with
  | none => false
  | some l => l ≠ 0 ∧ l ≤ c.times_used

/-- `Coupon.is_valid(cart_total=None)` — checks, in source order: `is_active`;
`now < valid_from`; `now > valid_to`; `usage_limit` truthy and
`times_used >= usage_limit`; and only `if cart_total is not None`,
`cart_total < min_purchase`.  Returns `(ok, message)`. -/
def Coupon.is_valid (c : Coupon) (now : Nat) (cart_total : Option Rat) :
    Bool × String :=
  if ¬ c.is_active then (false, "Coupon is not active")
  else if now < c.valid_from then (false, "Coupon is not yet valid")
  else if c.valid_to < now then (false, "Coupon has expired")
  else if c.usage_exhausted then (false, "Coupon usage limit reached")
  else if (match cart_total with
           | none => false
           | some t => t < c.min_purchase : Bool) then
    (false, "Minimum purchase required")
  else (true, "Valid")

/-- `Coupon.calculate_discount(cart_total)` — percentage type computes
`cart_total * value / 100` capped by `max_discount` when set (Python truthiness:
`if self.max_discount` is false for `None` and for `0`); fixed type uses the
value; the result is always capped at `cart_total`. -/
def Coupon.calculate_discount (c : Coupon) (cart_total : Rat) : Rat :=
  let discnt :=
    if c.discount_type = "percentage" then
      let d := cart_total * (c.discount_value / 100)
      match c.max_discount with
      | some m => if m ≠ 0 then min d m else d
      | none => d
    else c.discount_value
  min discnt cart_total

/-! ## POS sale aggregate (`src/pos/models.py`)

Status strings are the stored `TextChoices` values: `Sale.status` is one of
`"pending"`, `"completed"`, `"voided"`, `"refunded"`; `Sale.payment_status`
is `"pending"`, `"partial"` or `"paid"`. -/

/-- `pos.models.Payment` — one payment row attached to a sale. -/
structure PaymentRow where
  amount : Rat
  method : String
  status : String
  amount_tendered : Option Rat
  change_amount : Option Rat
  deriving Repr, DecidableEq

/-- `pos.models.SaleItem` — a persisted line item.  `line_total` is the stored
column; `SaleItem.save` computes it as `unit_price * quantity - discount`
when unset, which is how every row of the create-sale flow is built. -/
structure SaleItem where
  product_id : Nat
  quantity : Nat
  unit_price : Rat
  tax_rate : Rat
  discount : Rat
  line_total : Rat
  deriving Repr, DecidableEq

/-- `SaleItem.tax_amount` (property):
`(unit_price * quantity - discount) * tax_rate`. -/
def SaleItem.tax_amount (it : SaleItem) : Rat :=
  (it.unit_price * (it.quantity : Rat) - it.discount) * it.tax_rate

/-- `pos.models.Sale` — the transaction header together with its owned
`SaleItem` and `Payment` rows (`related_name` `items` / `payments`). -/
structure Sale where
  cashier : String
  customer_phone : String
  subtotal : Rat
  tax : Rat
  discount : Rat
  total : Rat
  payment_status : String
  amount_paid : Rat
  status : String
  notes : String
  terminal_id : String
  items : List SaleItem
  payments : List PaymentRow
  completed_at : Option Nat
  voided_at : Option Nat
  voided_by : Option String
  void_reason : String
  deriving Repr, DecidableEq

/-- `Sale.calculate_totals()`: `subtotal = Σ line_total`,
`tax = Σ tax_amount`, `total = subtotal + tax - discount`, persisted on the
sale row. -/
def Sale.calculate_totals (s : Sale) : Sale :=
  let subtotal := (s.items.map (·.line_total)).sum
  let tax := (s.items.map (·.tax_amount)).sum
  { s with subtotal := subtotal, tax := tax,
           total := subtotal + tax - s.discount }

/-- The catalog side of the database: the `products` table (keyed by id, as a
total map) and the append-only `inventory_adjustments` table. -/
structure CatalogState where
  products : Nat → Product
  adjustments : List InventoryAdjustment

/-- One `item.product.adjust_stock(...)` call against the database: replaces
the product row and prepends the audit record. -/
def CatalogState.applyAdjust (c : CatalogState) (pid : Nat) (delta : Int)
    (reason actor : String) : CatalogState :=
  let (p', adj) := (c.products pid).adjust_stock delta reason actor
  { products := fun i => if i = pid then p' else c.products i
    adjustments := adj :: c.adjustments }

/-- The stock-adjustment loop shared by `complete_sale` and `void_sale`:
for each line item whose product has `track_stock`, adjust that product's
stock by `f item`. -/
def CatalogState.adjustItems (c : CatalogState) (items : List SaleItem)
    (f : SaleItem → Int) (reason actor : String) : CatalogState :=
  items.foldl
    (fun c it =>
      if (c.products it.product_id).track_stock then
        c.applyAdjust it.product_id (f it) reason actor
      else c)
    c

/-- `Sale.complete_sale()` — raises unless `status == pending`; deducts each
tracked item's quantity (reason `"sale"`, attributed to the cashier); sets
`status = completed` and `completed_at`, saving only those two fields.
The whole call is one atomic transaction. -/
def Sale.complete_sale (s : Sale) (cat : CatalogState) (now : Nat) :
    Except String (Sale × CatalogState) :=
  if s.status ≠ "pending" then
    .error "Only pending sales can be completed"
  else
    .ok ({ s with status := "completed", completed_at := some now },
         cat.adjustItems s.items (fun it => -(it.quantity : Int)) "sale"
           s.cashier)

/-- `Sale.void_sale(user, reason)` — raises when `status == voided`; restores
each tracked item's quantity (reason `"return"`, attributed to `user`); sets
`status = voided` and the voiding metadata, in one atomic transaction. -/
def Sale.void_sale (s : Sale) (cat : CatalogState) (user reason : String)
    (now : Nat) : Except String (Sale × CatalogState) :=
  if s.status = "voided" then
    .error "Sale is already voided"
  else
    .ok ({ s with status := "voided", voided_at := some now,
                  voided_by := some user, void_reason := reason },
         cat.adjustItems s.items (fun it => (it.quantity : Int)) "return" user)

-- Sanity check of the embedding on concrete values.
example :
    (Product.adjust_stock
      { id := 1, sku := "A", stock := 3, track_stock := true, is_active := true,
        sell_price := 10, wholesale_price := none,
        minimum_wholesale_quantity := 1, tax_rate := 0 } (-5) "damage" "mgr"
      ).1.stock = -2 := by decide

/-! ## The create-sale endpoint (`src/pos/views.py`, `SaleViewSet.create_sale`)

The endpoint body is wrapped in `@transaction.atomic`.  Django commits the
transaction whenever the function returns normally and rolls it back only when
an exception escapes.  Every rejection in `create_sale` is a normal
`return Response(..., 400)`, so whatever was written before the rejection is
committed; only raised exceptions (e.g. `complete_sale`'s `ValueError`) roll
the whole request back.  The embedding returns, with each outcome, the
database state committed at that return. -/

/-- One entry of the serializer's validated `items` list. -/
structure ItemInput where
  product_id : Nat
  quantity : Nat
  discount : Rat
  deriving Repr, DecidableEq

/-- One entry of the serializer's validated `payments` list. -/
structure PaymentInput where
  amount : Rat
  method : String
  amount_tendered : Option Rat
  change_amount : Option Rat
  deriving Repr, DecidableEq

/-- The validated request body of `create_sale`. -/
structure SaleInput where
  customer_phone : String
  customer_name : String
  customer_email : String
  items : List ItemInput
  payments : List PaymentInput
  discount : Rat
  notes : String
  deriving Repr, DecidableEq

/-- The business-rule rejections of `create_sale` (each is a
`return Response({'error': ...}, 400)`); the payload recorded with each
constructor is the datum interpolated into the source's message string. -/
inductive CreateSaleError where
  /-- `f'Product {product.sku} cannot be sold'` -/
  | productCannotSell (sku : String)
  /-- `f'Wholesale customers must pay at least 50% ({min_payment})'` -/
  | wholesaleMinPayment (min_payment : Rat)
  /-- `'Insufficient payment amount'` -/
  | insufficientPayment
  deriving Repr, DecidableEq

/-- Result of the create-sale endpoint.  `created` is the 201 response;
`rejected` is a 400 response (a normal return: the transaction COMMITS);
`raised` is an escaping exception (the transaction rolls back). -/
inductive FlowResult where
  | created (sale : Sale)
  | rejected (e : CreateSaleError)
  | raised (msg : String)
  deriving Repr, DecidableEq

/-- The slice of the database the endpoint touches: customers (keyed by
phone — `get_or_create(phone=...)`), the catalog tables, and the persisted
sales (each carrying its item and payment rows). -/
structure PosDB where
  customersByPhone : String → Option Customer
  catalog : CatalogState
  sales : List Sale

/-- `Customer.objects.get_or_create(phone=..., defaults=...)` followed by the
update of name/email for an existing customer (lines 48-62 of
`pos/views.py`).  Returns the in-memory customer row and the updated table. -/
def getOrCreateCustomer (tbl : String → Option Customer)
    (phone name email : String) :
    Customer × (String → Option Customer) :=
  match tbl phone with
  | some c =>
    let c' := { c with name := name
                       email := if email ≠ "" then email else c.email }
    (c', fun ph => if ph = phone then some c' else tbl ph)
  | none =>
    let c : Customer :=
      { phone := phone, name := name, email := email
        customer_type := "retail", discount_percentage := 0
        credit_limit := 0, current_balance := 0, is_active := true }
    (c, fun ph => if ph = phone then some c else tbl ph)

/-- The item-creation loop (lines 74-93): for each input, look the product up,
reject when `can_sell` fails, otherwise price it for the customer and persist
a `SaleItem` row.  Returns the rows created before any rejection together
with the rejection, if one occurred. -/
def createItems (products : Nat → Product) (customer : Customer) :
    List ItemInput → List SaleItem × Option CreateSaleError
  | [] => ([], none)
  | inp :: rest =>
    let p := products inp.product_id
    if ¬ p.can_sell inp.quantity then
      ([], some (.productCannotSell p.sku))
    else
      let (unit_price, _) := p.get_price_for_customer (some customer)
        inp.quantity
      let item : SaleItem :=
        { product_id := inp.product_id, quantity := inp.quantity
          unit_price := unit_price, tax_rate := p.tax_rate
          discount := inp.discount
          line_total := unit_price * (inp.quantity : Rat) - inp.discount }
      let (restItems, err) := createItems products customer rest
      (item :: restItems, err)

/-- The running sum of the payment loop (line 99-102):
`total_payment = Σ payment.amount`. -/
def totalPaymentOf (pays : List PaymentInput) : Rat :=
  (pays.map (·.amount)).sum

/-- One payment row as created at lines 103-110 (status `completed`). -/
def PaymentInput.toRow (pd : PaymentInput) : PaymentRow :=
  { amount := pd.amount, method := pd.method, status := "completed"
    amount_tendered := pd.amount_tendered
    change_amount := pd.change_amount }

/-- Outcome of the settlement step, tagged like `FlowResult`. -/
inductive SettleOutcome where
  | ok
  | rejected (e : CreateSaleError)
  | raised (msg : String)
  deriving Repr, DecidableEq

/-- State after the settlement step. -/
structure SettleResult where
  catalog : CatalogState
  customer : Customer
  sale : Sale
  outcome : SettleOutcome

/-- Lines 98-137 of `pos/views.py`: create the payment rows, sum them, apply
the per-customer-type settlement policy, and complete the sale.
For a wholesale customer: reject when `total_payment < total * 0.5`; when
`total_payment < total`, set `payment_status = partial` and add
`total - total_payment` to the customer's `current_balance`.  Otherwise
(retail/vip) reject when `total_payment < total`.  On acceptance,
`sale.complete_sale()`. -/
def settleAndComplete (cat : CatalogState) (customer : Customer) (sale : Sale)
    (pays : List PaymentInput) (now : Nat) : SettleResult :=
  let total_payment := totalPaymentOf pays
  let sale := { sale with payments := sale.payments ++ pays.map (·.toRow) }
  if customer.customer_type = "wholesale" then
    let min_payment := sale.total * (1/2 : Rat)
    if total_payment < min_payment then
      { catalog := cat, customer := customer, sale := sale
        outcome := .rejected (.wholesaleMinPayment min_payment) }
    else
      let (sale, customer) :=
        if total_payment < sale.total then
          ({ sale with payment_status := "partial" },
           { customer with current_balance :=
               customer.current_balance + (sale.total - total_payment) })
        else (sale, customer)
      match sale.complete_sale cat now with
      | .ok (sale', cat') =>
        { catalog := cat', customer := customer, sale := sale', outcome := .ok }
      | .error e =>
        { catalog := cat, customer := customer, sale := sale
          outcome := .raised e }
  else
    if total_payment < sale.total then
      { catalog := cat, customer := customer, sale := sale
        outcome := .rejected .insufficientPayment }
    else
      match sale.complete_sale cat now with
      | .ok (sale', cat') =>
        { catalog := cat', customer := customer, sale := sale', outcome := .ok }
      | .error e =>
        { catalog := cat, customer := customer, sale := sale
          outcome := .raised e }

/-- `SaleViewSet.create_sale` — the whole endpoint on validated input.
Returns the committed database and the response.  On a 400 rejection the
customer update, the sale row, and the item/payment rows written before the
rejection are committed (the atomic block is exited by a normal return); only
the `raised` outcome rolls back to the original database. -/
def create_sale (db : PosDB) (cashier terminal_id : String) (inp : SaleInput)
    (now : Nat) : PosDB × FlowResult :=
  let (customer, customers') := getOrCreateCustomer db.customersByPhone
    inp.customer_phone inp.customer_name inp.customer_email
  -- `Sale.objects.create(...)` — all remaining columns take their defaults.
  let sale0 : Sale :=
    { cashier := cashier, customer_phone := inp.customer_phone
      subtotal := 0, tax := 0, discount := inp.discount, total := 0
      payment_status := "pending", amount_paid := 0, status := "pending"
      notes := inp.notes, terminal_id := terminal_id
      items := [], payments := []
      completed_at := none, voided_at := none, voided_by := none
      void_reason := "" }
  let (items, itemErr) := createItems db.catalog.products customer inp.items
  let sale1 := { sale0 with items := items }
  match itemErr with
  | some e =>
    ({ db with customersByPhone := customers'
               sales := db.sales ++ [sale1] }, .rejected e)
  | none =>
    let sale2 := sale1.calculate_totals
    let r := settleAndComplete db.catalog customer sale2 inp.payments now
    match r.outcome with
    | .rejected e =>
      ({ customersByPhone := customers'
         catalog := r.catalog
         sales := db.sales ++ [r.sale] }, .rejected e)
    | .raised e => (db, .raised e)
    | .ok =>
      ({ customersByPhone := fun ph =>
           if ph = inp.customer_phone then some r.customer else customers' ph
         catalog := r.catalog
         sales := db.sales ++ [r.sale] }, .created r.sale)

/-! ## Wholesale invoices (`src/wholesale/models.py`, `src/wholesale/views.py`)

`generate_invoice_number` builds `f"INV-{year}-{n:04d}"` and finds the current
maximum with a SQL `Max` aggregate over the `invoice_number` *strings* that
start with the year's prefix.  All compared strings share the prefix
`INV-<year>-`, so the string comparison reduces to the lexicographic
comparison of the digit suffixes (digit characters compare like their
values).  We therefore model an invoice number by the list of decimal digits
of its suffix (most significant first). -/

/-- Lexicographic comparison of digit strings, as SQL/Python compare the
(equal-prefix) `invoice_number` strings: a strict prefix sorts first. -/
def lexLt : List Nat → List Nat → Bool
  | [], [] => false
  | [], _ :: _ => true
  | _ :: _, [] => false
  | a :: as, b :: bs =>
    if a < b then true
    else if a = b then lexLt as bs
    else false

/-- The SQL `Max` aggregate over a column of digit strings
(`None` on an empty table). -/
def listMax (l : List (List Nat)) : Option (List Nat) :=
  l.foldl
    (fun acc x =>
      match acc with
      | none => some x
      | some m => if lexLt m x then some x else some m)
    none

/-- Python's `f"{n:04d}"`: the decimal digits of `n`, left-padded with zeros
to at least four digits.  For `n < 10000` these are exactly
`[n/1000, n/100 % 10, n/10 % 10, n % 10]`. -/
def format04 (n : Nat) : List Nat :=
  if n < 10000 then [n / 1000, n / 100 % 10, n / 10 % 10, n % 10]
  else (Nat.digits 10 n).reverse

/-- Python's `int(...)` on a digit string. -/
def fromDigits (ds : List Nat) : Nat :=
  ds.foldl (fun acc d => 10 * acc + d) 0

/-- `Invoice.generate_invoice_number()` restricted to one calendar year:
take the `Max` of the stored numbers with this year's prefix; if none exists
the sequence starts at 1, otherwise at `int(last.split('-')[-1]) + 1`;
format with `f"{prefix}{new_number:04d}"`. -/
def generate_invoice_number (existing : List (List Nat)) : List Nat :=
  match listMax existing with
  | none => format04 1
  | some last => format04 (fromDigits last + 1)

/-- The numbers stored after `n` sequential invoice creations in one year,
each one generated from the table state left by its predecessors. -/
def invoiceNumbersSeq : Nat → List (List Nat)
  | 0 => []
  | n + 1 =>
    let prev := invoiceNumbersSeq n
    prev ++ [generate_invoice_number prev]

/-- `wholesale.models.Invoice` — the fields the settlement claims read and
write.  `invoice_number` is `none` while unset (Python's falsy empty string);
dates are day ordinals; `payment_status` is one of the stored choice strings
`"unpaid"`, `"partial"`, `"paid"`, `"overdue"`, `"cancelled"`. -/
structure Invoice where
  invoice_number : Option (List Nat)
  issue_date : Nat
  due_date : Option Nat
  payment_terms : String
  subtotal : Rat
  tax_amount : Rat
  discount_amount : Rat
  total_amount : Rat
  amount_paid : Rat
  payment_status : String
  deriving Repr, DecidableEq

/-- `Invoice.balance_due` (property): `total_amount - amount_paid`. -/
def Invoice.balance_due (inv : Invoice) : Rat :=
  inv.total_amount - inv.amount_paid

/-- `Invoice.calculate_due_date()`:
`issue_date + {net_30: 30, net_15: 15, net_7: 7, due_on_receipt: 0,
custom: 0}.get(payment_terms, 30)` days. -/
def Invoice.calculate_due_date (inv : Invoice) : Nat :=
  let days :=
    if inv.payment_terms = "net_30" then 30
    else if inv.payment_terms = "net_15" then 15
    else if inv.payment_terms = "net_7" then 7
    else if inv.payment_terms = "due_on_receipt" then 0
    else if inv.payment_terms = "custom" then 0
    else 30
  inv.issue_date + days

/-- `Invoice.update_payment_status()`: `unpaid` if `amount_paid ≤ 0`, `paid`
if `amount_paid ≥ total_amount`, else `partial`; then overridden to `overdue`
when the recomputed status is not `paid` and the due date has passed.  The
method runs unconditionally on every `save()`, overwriting whatever
`payment_status` the caller had assigned. -/
def Invoice.update_payment_status (inv : Invoice) (today : Nat) : Invoice :=
  let st :=
    if inv.amount_paid ≤ 0 then "unpaid"
    else if inv.total_amount ≤ inv.amount_paid then "paid"
    else "partial"
  let st :=
    if st ≠ "paid" ∧ (match inv.due_date with
                      | some d => d < today
                      | none => false : Bool) then "overdue"
    else st
  { inv with payment_status := st }

/-- `Invoice.save()`: generate `invoice_number` when unset, derive `due_date`
when unset, then recompute `payment_status`, and persist.  `existing` is the
table of already-stored numbers for the current year. -/
def Invoice.save (existing : List (List Nat)) (inv : Invoice) (today : Nat) :
    Invoice :=
  let inv :=
    match inv.invoice_number with
    | none => { inv with invoice_number := some (generate_invoice_number existing) }
    | some _ => inv
  let inv :=
    match inv.due_date with
    | none => { inv with due_date := some inv.calculate_due_date }
    | some _ => inv
  inv.update_payment_status today

/-- `wholesale.models.InvoicePayment` — a link row applying one payment to an
invoice. -/
structure InvoicePayment where
  amount : Rat
  notes : String
  recorded_by : String
  deriving Repr, DecidableEq

/-- `InvoicePayment.save()`: persist the link row, then recompute the
invoice's `amount_paid` as the `Sum` of *all* its linked amounts and re-save
the invoice (which recomputes its status). -/
def InvoicePayment.saveLink (existing : List (List Nat)) (inv : Invoice)
    (links : List InvoicePayment) (ip : InvoicePayment) (today : Nat) :
    Invoice × List InvoicePayment :=
  let links' := links ++ [ip]
  let paid := ((links'.map (·.amount)).sum)
  (Invoice.save existing { inv with amount_paid := paid } today, links')

/-- `wholesale.views.invoice_record_payment` (POST body): reject
`amount <= 0`, reject `amount > balance_due`; otherwise create a `Payment`
row and the linking `InvoicePayment` (whose save recomputes the invoice).
Returns the committed `(invoice, link rows, payments table)` and the flash
outcome. -/
def invoice_record_payment (existing : List (List Nat)) (inv : Invoice)
    (links : List InvoicePayment) (payments : List PaymentRow) (amount : Rat)
    (payment_method notes actor : String) (today : Nat) :
    (Invoice × List InvoicePayment × List PaymentRow) × Except String Unit :=
  if amount ≤ 0 then
    ((inv, links, payments), .error "Payment amount must be greater than zero!")
  else if inv.balance_due < amount then
    ((inv, links, payments), .error "Payment amount exceeds balance due!")
  else
    let pay : PaymentRow :=
      { amount := amount, method := payment_method, status := "pending"
        amount_tendered := some amount, change_amount := some 0 }
    let (inv', links') := InvoicePayment.saveLink existing inv links
      { amount := amount, notes := notes, recorded_by := actor } today
    ((inv', links', payments ++ [pay]), .ok ())

/-- `wholesale.views.invoice_cancel` (POST): reject when `amount_paid > 0`;
otherwise assign `payment_status = 'cancelled'` and save (the save re-runs
`update_payment_status`). -/
def invoice_cancel (existing : List (List Nat)) (inv : Invoice)
    (today : Nat) : Invoice × Except String Unit :=
  if 0 < inv.amount_paid then
    (inv, .error "Cannot cancel invoice with payments!")
  else
    (Invoice.save existing { inv with payment_status := "cancelled" } today,
     .ok ())

/-! ## Concrete fixtures used by witnesses and counterexamples -/

/-- A tracked product with stock 3. -/
def prodTracked : Product :=
  { id := 1, sku := "SKU-1", stock := 3, track_stock := true, is_active := true
    sell_price := 10, wholesale_price := none
    minimum_wholesale_quantity := 1, tax_rate := 0 }

/-- A tracked product priced for wholesale (retail 120, wholesale 100). -/
def prodW : Product :=
  { id := 1, sku := "SKU-1", stock := 10, track_stock := true, is_active := true
    sell_price := 120, wholesale_price := some 100
    minimum_wholesale_quantity := 1, tax_rate := 0 }

/-- A catalog whose every key holds `prodW`, with an empty audit table. -/
def catW : CatalogState := { products := fun _ => prodW, adjustments := [] }

/-- An active wholesale customer with zero balance. -/
def custW : Customer :=
  { phone := "0551", name := "W Ltd", email := ""
    customer_type := "wholesale", discount_percentage := 0
    credit_limit := 1000, current_balance := 0, is_active := true }

/-- An active retail customer. -/
def custR : Customer :=
  { phone := "0552", name := "R Person", email := ""
    customer_type := "retail", discount_percentage := 0
    credit_limit := 0, current_balance := 0, is_active := true }

/-- A freshly created sale row (column defaults), with `total` set to 100 as
`calculate_totals` would after a 100-cedi line item. -/
def sale100 : Sale :=
  { cashier := "cash1", customer_phone := "0551"
    subtotal := 100, tax := 0, discount := 0, total := 100
    payment_status := "pending", amount_paid := 0, status := "pending"
    notes := "", terminal_id := "T1", items := [], payments := []
    completed_at := none, voided_at := none, voided_by := none
    void_reason := "" }

/-- A single cash payment of 40. -/
def pays40 : List PaymentInput := [{ amount := 40, method := "cash",
                                     amount_tendered := none, change_amount := none }]

/-- A single cash payment of 50. -/
def pays50 : List PaymentInput := [{ amount := 50, method := "cash",
                                     amount_tendered := none, change_amount := none }]

/-- A single cash payment of 100. -/
def pays100 : List PaymentInput := [{ amount := 100, method := "cash",
                                      amount_tendered := none, change_amount := none }]

/-! ## C4 — `adjust_stock` and negative stock -/

/-- **C4** (code bug): the spec says `adjust_stock` fails, with no state
change, whenever `stock + delta` would be negative for a tracked product, and
never records a negative resulting stock.  The source has no such guard: on a
tracked product with stock 3 and delta −5 it succeeds, stores stock −2 on the
product, and records an `InventoryAdjustment` with `new_stock = -2`. -/
theorem adjust_stock_allows_negative_stock :
    prodTracked.track_stock = true ∧
    prodTracked.stock + (-5) < 0 ∧
    (prodTracked.adjust_stock (-5) "damage" "manager").1.stock = -2 ∧
    (prodTracked.adjust_stock (-5) "damage" "manager").2.new_stock = -2 := by
  decide

/-! ## C8 — voiding twice -/

/-- **C8** (confirmed): `void_sale` on a sale already in state `voided` fails
with the invalid-state error; no stock restoration and no state change happen
(the `Except.error` return carries no updated sale or catalog — the raised
`ValueError` aborts the atomic transaction before any mutation). -/
theorem void_sale_twice_rejected (s : Sale) (cat : CatalogState)
    (user reason : String) (now : Nat) (h : s.status = "voided") :
    s.void_sale cat user reason now = .error "Sale is already voided" := by
  simp [Sale.void_sale, h]

/-- A voided sale. -/
def saleVoided : Sale := { sale100 with status := "voided" }

/-- Witness for C8 at a concrete voided sale. -/
theorem void_sale_twice_rejected_witness :
    saleVoided.status = "voided" ∧
    saleVoided.void_sale catW "boss" "fraud" 7 =
      .error "Sale is already voided" :=
  ⟨rfl, void_sale_twice_rejected saleVoided catW "boss" "fraud" 7 rfl⟩

/-! ## C10 — `Coupon.is_valid` without a cart total -/

/-- **C10** (confirmed): with `cart_total = None` the minimum-purchase check
is skipped entirely — the result is independent of `min_purchase`, and a
coupon passing the other checks is reported valid even when
`min_purchase > 0`; the rule bites only when a cart total is supplied. -/
theorem is_valid_skips_min_purchase_without_cart_total
    (c : Coupon) (now : Nat) :
    (∀ x : Rat,
      Coupon.is_valid { c with min_purchase := x } now none =
        c.is_valid now none) ∧
    (c.is_active = true → c.valid_from ≤ now → now ≤ c.valid_to →
      c.usage_exhausted = false → 0 < c.min_purchase →
      c.is_valid now none = (true, "Valid")) ∧
    (∀ t : Rat, c.is_active = true → c.valid_from ≤ now → now ≤ c.valid_to →
      c.usage_exhausted = false → t < c.min_purchase →
      c.is_valid now (some t) = (false, "Minimum purchase required")) := by
  refine ⟨fun x => ?_, fun ha h1 h2 hu _ => ?_, fun t ha h1 h2 hu ht => ?_⟩
  · simp [Coupon.is_valid, Coupon.usage_exhausted]
  · have hn1 : ¬ now < c.valid_from := by omega
    have hn2 : ¬ c.valid_to < now := by omega
    simp [Coupon.is_valid, ha, hn1, hn2, hu]
  · have hn1 : ¬ now < c.valid_from := by omega
    have hn2 : ¬ c.valid_to < now := by omega
    simp [Coupon.is_valid, ha, hn1, hn2, hu, ht]

/-- A concrete coupon: active, window `[2, 9]`, no usage limit,
`min_purchase = 25`. -/
def couponMin25 : Coupon :=
  { code := "SAVE10", discount_type := "percentage", discount_value := 10
    min_purchase := 25, max_discount := none
    valid_from := 2, valid_to := 9, is_active := true
    usage_limit := none, times_used := 0 }

/-- Witness for C10: `couponMin25` at time 5 is reported valid with no cart
total although `min_purchase = 25 > 0`, and is rejected for a cart of 10. -/
theorem is_valid_skips_min_purchase_without_cart_total_witness :
    couponMin25.is_valid 5 none = (true, "Valid") ∧
    couponMin25.is_valid 5 (some 10) = (false, "Minimum purchase required") :=
  ⟨(is_valid_skips_min_purchase_without_cart_total couponMin25 5).2.1
      rfl (by decide) (by decide) rfl (by norm_num [couponMin25]),
   (is_valid_skips_min_purchase_without_cart_total couponMin25 5).2.2
      10 rfl (by decide) (by decide) rfl (by norm_num [couponMin25])⟩

/-! ## C5 — cancelling an invoice -/

/-- An invoice with nothing paid: number `INV-<year>-0001`, issued day 0 on
net-30 terms (due day 30), total 100. -/
def invUnpaid : Invoice :=
  { invoice_number := some [0, 0, 0, 1], issue_date := 0, due_date := some 30
    payment_terms := "net_30", subtotal := 100, tax_amount := 0
    discount_amount := 0, total_amount := 100, amount_paid := 0
    payment_status := "unpaid" }

/-- **C5** (code bug): `invoice_cancel` does gate on `amount_paid == 0`, but
the cancelling save does **not** leave the invoice in the terminal state
`cancelled`: `Invoice.save` unconditionally re-runs `update_payment_status`,
which recomputes the status from `amount_paid` (0 → `unpaid`) and so
overwrites the caller-set `cancelled`.  Evaluated on `invUnpaid` at day 5
(before the due date): the view reports success, yet the persisted status is
`"unpaid"`, not `"cancelled"`. -/
theorem invoice_cancel_does_not_persist_cancelled :
    (invoice_cancel [] invUnpaid 5).2 = .ok () ∧
    ((invoice_cancel [] invUnpaid 5).1).payment_status = "unpaid" := by
  norm_num [invoice_cancel, invUnpaid, Invoice.save,
    Invoice.update_payment_status]

/-! ## C1 — the wholesale settlement policy -/

/-- **C1** (confirmed): for a wholesale customer the settlement step works
with `min_payment = total * 0.5`; a payment sum strictly below it is rejected
with the insufficient-payment error (customer untouched); a sum at least the
minimum but strictly below the total is accepted, setting
`payment_status = "partial"` and increasing `current_balance` by exactly
`total - total_payment`. -/
theorem wholesale_settlement_policy (cat : CatalogState) (customer : Customer)
    (sale : Sale) (pays : List PaymentInput) (now : Nat)
    (hw : customer.customer_type = "wholesale") :
    (totalPaymentOf pays < sale.total * (1/2 : Rat) →
      (settleAndComplete cat customer sale pays now).outcome =
        .rejected (.wholesaleMinPayment (sale.total * (1/2 : Rat))) ∧
      (settleAndComplete cat customer sale pays now).customer = customer) ∧
    (sale.total * (1/2 : Rat) ≤ totalPaymentOf pays →
     totalPaymentOf pays < sale.total → sale.status = "pending" →
      (settleAndComplete cat customer sale pays now).outcome = .ok ∧
      (settleAndComplete cat customer sale pays now).sale.payment_status =
        "partial" ∧
      (settleAndComplete cat customer sale pays now).sale.status =
        "completed" ∧
      (settleAndComplete cat customer sale pays now).customer.current_balance =
        customer.current_balance + (sale.total - totalPaymentOf pays)) := by
  constructor
  · intro hlt
    simp only [one_div] at hlt ⊢
    simp [settleAndComplete, hw, hlt]
  · intro hge hlt hst
    have hnlt : ¬ totalPaymentOf pays < sale.total * (1/2 : Rat) :=
      not_lt.mpr hge
    simp only [one_div] at hnlt
    simp [settleAndComplete, hw, hnlt, hlt, Sale.complete_sale, hst]

/-- Witness for C1: a wholesale sale of total 100 with payment 40 is rejected
(minimum 50); with payment 50 it is accepted, `payment_status` becomes
`partial` and the customer's balance increases by 50. -/
theorem wholesale_settlement_policy_witness :
    custW.customer_type = "wholesale" ∧
    totalPaymentOf pays40 < sale100.total * (1/2 : Rat) ∧
    (settleAndComplete catW custW sale100 pays40 0).outcome =
      .rejected (.wholesaleMinPayment (sale100.total * (1/2 : Rat))) ∧
    sale100.total * (1/2 : Rat) ≤ totalPaymentOf pays50 ∧
    totalPaymentOf pays50 < sale100.total ∧
    (settleAndComplete catW custW sale100 pays50 0).outcome = .ok ∧
    (settleAndComplete catW custW sale100 pays50 0).sale.payment_status =
      "partial" ∧
    (settleAndComplete catW custW sale100 pays50 0).customer.current_balance =
      custW.current_balance + (sale100.total - totalPaymentOf pays50) := by
  have h40 : totalPaymentOf pays40 < sale100.total * (1/2 : Rat) := by
    norm_num [totalPaymentOf, pays40, sale100]
  have h50a : sale100.total * (1/2 : Rat) ≤ totalPaymentOf pays50 := by
    norm_num [totalPaymentOf, pays50, sale100]
  have h50b : totalPaymentOf pays50 < sale100.total := by
    norm_num [totalPaymentOf, pays50, sale100]
  have hmain := wholesale_settlement_policy catW custW sale100 pays40 0 rfl
  have hmain' := wholesale_settlement_policy catW custW sale100 pays50 0 rfl
  have h1 := hmain.1 h40
  have h2 := hmain'.2 h50a h50b rfl
  exact ⟨rfl, h40, h1.1, h50a, h50b, h2.1, h2.2.1, h2.2.2.2⟩

/-! ## C9 — `complete_sale` never touches the payment fields -/

/-- **C9** (confirmed): `complete_sale` saves only `status` and
`completed_at` (`update_fields=['status', 'completed_at']`) — every other
sale column, in particular `payment_status` and `amount_paid`, is returned
unchanged; and the settlement step of the create-sale flow touches
`payment_status` only in the under-paid wholesale branch, so a sale whose
payments cover its (non-negative) total completes with its created defaults
intact: `payment_status` still `"pending"`-as-created and `amount_paid`
still as created (0). -/
theorem complete_sale_leaves_payment_fields (s : Sale) (cat : CatalogState)
    (now : Nat) (s' : Sale) (cat' : CatalogState) :
    (s.complete_sale cat now = .ok (s', cat') →
      s' = { s with status := "completed", completed_at := some now }) ∧
    (∀ (customer : Customer) (sale : Sale) (pays : List PaymentInput),
      sale.status = "pending" → 0 ≤ sale.total →
      sale.total ≤ totalPaymentOf pays →
      (settleAndComplete cat customer sale pays now).outcome = .ok ∧
      (settleAndComplete cat customer sale pays now).sale.status =
        "completed" ∧
      (settleAndComplete cat customer sale pays now).sale.payment_status =
        sale.payment_status ∧
      (settleAndComplete cat customer sale pays now).sale.amount_paid =
        sale.amount_paid ∧
      (settleAndComplete cat customer sale pays now).customer = customer) := by
  constructor
  · intro h
    by_cases hst : s.status = "pending"
    · simp [Sale.complete_sale, hst] at h
      exact h.1.symm
    · simp [Sale.complete_sale, hst] at h
  · intro customer sale pays hst htot hcov
    have hnp : ¬ totalPaymentOf pays < sale.total := not_lt.mpr hcov
    have hnh : ¬ totalPaymentOf pays < sale.total * (1/2 : Rat) := by
      intro hx
      have : sale.total * (1/2 : Rat) ≤ sale.total := by nlinarith
      exact hnp (lt_of_lt_of_le hx this)
    simp only [one_div] at hnh
    by_cases hw : customer.customer_type = "wholesale" <;>
      simp [settleAndComplete, hw, hnh, hnp, Sale.complete_sale, hst]

/-- Witness for C9: completing `sale100` (empty item list) only flips
`status`/`completed_at`, and a retail sale of total 100 paid 100 completes
with `payment_status` and `amount_paid` exactly as created. -/
theorem complete_sale_leaves_payment_fields_witness :
    (({ sale100 with status := "completed", completed_at := some 3 } : Sale) =
      { sale100 with status := "completed", completed_at := some 3 }) ∧
    (settleAndComplete catW custR sale100 pays100 3).outcome = .ok ∧
    (settleAndComplete catW custR sale100 pays100 3).sale.status =
      "completed" ∧
    (settleAndComplete catW custR sale100 pays100 3).sale.payment_status =
      sale100.payment_status ∧
    (settleAndComplete catW custR sale100 pays100 3).sale.amount_paid =
      sale100.amount_paid ∧
    (settleAndComplete catW custR sale100 pays100 3).customer = custR :=
  ⟨(complete_sale_leaves_payment_fields sale100 catW 3
      { sale100 with status := "completed", completed_at := some 3 } catW).1
      (by rfl),
   (complete_sale_leaves_payment_fields sale100 catW 3 sale100 catW).2
      custR sale100 pays100 rfl (by norm_num [sale100])
      (by norm_num [totalPaymentOf, pays100, sale100])⟩

/-! ## C6 — recording an invoice payment -/

/-- `Invoice.save` never changes `amount_paid` (only the number, the due
date, and the recomputed status). -/
theorem Invoice.save_amount_paid (existing : List (List Nat)) (inv : Invoice)
    (today : Nat) :
    (Invoice.save existing inv today).amount_paid = inv.amount_paid := by
  cases hno : inv.invoice_number <;> cases hdd : inv.due_date <;>
    simp [Invoice.save, Invoice.update_payment_status, hno, hdd]

/-- `Invoice.save` never changes `total_amount`. -/
theorem Invoice.save_total_amount (existing : List (List Nat)) (inv : Invoice)
    (today : Nat) :
    (Invoice.save existing inv today).total_amount = inv.total_amount := by
  cases hno : inv.invoice_number <;> cases hdd : inv.due_date <;>
    simp [Invoice.save, Invoice.update_payment_status, hno, hdd]

/-- After `Invoice.save`, an invoice whose `amount_paid` is positive and
covers `total_amount` is in status `"paid"` (the overdue override only
applies to non-paid statuses). -/
theorem Invoice.save_paid (existing : List (List Nat)) (inv : Invoice)
    (today : Nat) (hcov : inv.total_amount ≤ inv.amount_paid)
    (hpos : ¬ inv.amount_paid ≤ 0) :
    (Invoice.save existing inv today).payment_status = "paid" := by
  cases hno : inv.invoice_number <;> cases hdd : inv.due_date <;>
    simp [Invoice.save, Invoice.update_payment_status, hno, hdd, hcov, hpos]

/-- **C6** (confirmed): `record_payment` rejects `amount ≤ 0` and
`amount > balance_due` with no state change; on acceptance it appends the
`Payment` row and the linking `InvoicePayment`, after which `amount_paid`
equals the sum of all linked amounts (`total_amount` untouched), and paying
exactly the full balance makes `payment_status = "paid"` and
`balance_due = 0`.  The aggregate-sum hypothesis `hsum` is the derived-field
invariant that `InvoicePayment.save` itself maintains. -/
theorem record_payment_policy (existing : List (List Nat)) (inv : Invoice)
    (links : List InvoicePayment) (payments : List PaymentRow)
    (amount : Rat) (pm pn pa : String) (today : Nat)
    (hsum : inv.amount_paid = (links.map (·.amount)).sum)
    (hnn : 0 ≤ inv.amount_paid) :
    (amount ≤ 0 →
      invoice_record_payment existing inv links payments amount pm pn pa today =
        ((inv, links, payments),
         .error "Payment amount must be greater than zero!")) ∧
    (inv.balance_due < amount → 0 < amount →
      invoice_record_payment existing inv links payments amount pm pn pa today =
        ((inv, links, payments),
         .error "Payment amount exceeds balance due!")) ∧
    (0 < amount → amount ≤ inv.balance_due →
      (invoice_record_payment existing inv links payments amount pm pn pa
          today).2 = .ok () ∧
      (invoice_record_payment existing inv links payments amount pm pn pa
          today).1.2.1 = links ++ [{ amount := amount, notes := pn,
                                     recorded_by := pa }] ∧
      (invoice_record_payment existing inv links payments amount pm pn pa
          today).1.1.amount_paid =
        ((links ++ [{ amount := amount, notes := pn,
                      recorded_by := pa }] : List InvoicePayment).map
           (·.amount)).sum ∧
      (invoice_record_payment existing inv links payments amount pm pn pa
          today).1.1.total_amount = inv.total_amount ∧
      (amount = inv.balance_due →
        (invoice_record_payment existing inv links payments amount pm pn pa
            today).1.1.payment_status = "paid" ∧
        (invoice_record_payment existing inv links payments amount pm pn pa
            today).1.1.balance_due = 0)) := by
  refine ⟨fun hle => ?_, fun hgt hpos => ?_, fun hpos hle => ?_⟩
  · simp [invoice_record_payment, hle]
  · have hnle : ¬ amount ≤ 0 := not_le.mpr hpos
    simp [invoice_record_payment, hnle, hgt]
  · have hnle : ¬ amount ≤ 0 := not_le.mpr hpos
    have hngt : ¬ inv.balance_due < amount := not_lt.mpr hle
    have hR : invoice_record_payment existing inv links payments amount pm pn
        pa today =
        ((Invoice.save existing
            { inv with amount_paid :=
                (((links ++ [(⟨amount, pn, pa⟩ : InvoicePayment)]).map
                  (·.amount)).sum) } today,
          links ++ [(⟨amount, pn, pa⟩ : InvoicePayment)],
          payments ++
            [(⟨amount, pm, "pending", some amount, some 0⟩ : PaymentRow)]),
         .ok ()) := by
      simp [invoice_record_payment, hnle, hngt, InvoicePayment.saveLink]
    have hpaid : (((links ++ [(⟨amount, pn, pa⟩ : InvoicePayment)]).map
        (·.amount)).sum) = inv.amount_paid + amount := by
      simp [hsum]
    refine ⟨by rw [hR], by rw [hR], ?_, ?_, fun hfull => ⟨?_, ?_⟩⟩
    · rw [hR]
      simp [Invoice.save_amount_paid]
    · rw [hR]
      simp [Invoice.save_total_amount]
    · have hS : (((links ++ [(⟨amount, pn, pa⟩ : InvoicePayment)]).map
          (·.amount)).sum) = inv.total_amount := by
        rw [hpaid, hfull]
        simp [Invoice.balance_due]
      have h0 : ¬ (((links ++ [(⟨amount, pn, pa⟩ : InvoicePayment)]).map
          (·.amount)).sum) ≤ 0 := by
        rw [hpaid]
        have : 0 < inv.amount_paid + amount := by linarith
        exact not_le.mpr this
      rw [hR]
      exact Invoice.save_paid existing _ today (by simpa using hS.symm.le)
        (by simpa using h0)
    · have hS : (((links ++ [(⟨amount, pn, pa⟩ : InvoicePayment)]).map
          (·.amount)).sum) = inv.total_amount := by
        rw [hpaid, hfull]
        simp [Invoice.balance_due]
      rw [hR]
      simp [Invoice.balance_due, Invoice.save_total_amount,
        Invoice.save_amount_paid]
      simp at hS
      linarith

/-- An open invoice of total 30 with nothing paid and no linked payments. -/
def inv30 : Invoice :=
  { invoice_number := some [0, 0, 0, 2], issue_date := 0, due_date := some 30
    payment_terms := "net_30", subtotal := 30, tax_amount := 0
    discount_amount := 0, total_amount := 30, amount_paid := 0
    payment_status := "unpaid" }

/-- Witness for C6 on `inv30` (balance due 30): amount 30.01 is rejected with
no state change; amount 30.00 is accepted, `payment_status` becomes `paid`
and `balance_due` becomes 0. -/
theorem record_payment_policy_witness :
    inv30.balance_due < (30.01 : Rat) ∧
    invoice_record_payment [] inv30 [] [] (30.01 : Rat) "cash" "" "mgr" 5 =
      ((inv30, [], []), .error "Payment amount exceeds balance due!") ∧
    (invoice_record_payment [] inv30 [] [] 30 "cash" "" "mgr" 5).2 = .ok () ∧
    (invoice_record_payment [] inv30 [] [] 30 "cash" "" "mgr"
        5).1.1.payment_status = "paid" ∧
    (invoice_record_payment [] inv30 [] [] 30 "cash" "" "mgr"
        5).1.1.balance_due = 0 := by
  have hbal : inv30.balance_due < (30.01 : Rat) := by
    norm_num [inv30, Invoice.balance_due]
  have hfull : (30 : Rat) = inv30.balance_due := by
    norm_num [inv30, Invoice.balance_due]
  have h := record_payment_policy [] inv30 [] [] (30.01 : Rat) "cash" "" "mgr"
    5 (by simp [inv30]) (by norm_num [inv30])
  have h' := record_payment_policy [] inv30 [] [] 30 "cash" "" "mgr"
    5 (by simp [inv30]) (by norm_num [inv30])
  have hrej := h.2.1 hbal (by norm_num)
  have hacc := h'.2.2 (by norm_num) (le_of_eq hfull)
  exact ⟨hbal, hrej, hacc.1, (hacc.2.2.2.2 hfull).1,
    (hacc.2.2.2.2 hfull).2⟩

/-! ## C3 — complete then void restores stock -/

/-- The net delta that the adjustment loop applies to product `pid`:
the sum of `f item` over the line items hitting that product. -/
def itemsDelta (f : SaleItem → Int) (pid : Nat) : List SaleItem → Int
  | [] => 0
  | it :: rest =>
    (if it.product_id = pid then f it else 0) + itemsDelta f pid rest

/-- Reading product `pid` after one `applyAdjust` at `pid0`: stock moves by
`delta` exactly when `pid = pid0`, and every other field is unchanged. -/
theorem applyAdjust_stock_track (c : CatalogState) (pid0 : Nat) (delta : Int)
    (r a : String) (pid : Nat) :
    ((c.applyAdjust pid0 delta r a).products pid).stock =
      (c.products pid).stock + (if pid0 = pid then delta else 0) ∧
    ((c.applyAdjust pid0 delta r a).products pid).track_stock =
      (c.products pid).track_stock := by
  by_cases hp : pid0 = pid
  · subst hp
    simp [CatalogState.applyAdjust, Product.adjust_stock]
  · have hp' : ¬ pid = pid0 := fun h => hp h.symm
    simp [CatalogState.applyAdjust, Product.adjust_stock, hp, hp']

/-- Effect of the whole adjustment loop on one product: its stock moves by
`itemsDelta f pid items` when it is tracked (tracking decided against the
starting state, which the loop never changes) and is untouched otherwise;
`track_stock` itself is preserved. -/
theorem adjustItems_effect (f : SaleItem → Int) (r a : String) (pid : Nat) :
    ∀ (items : List SaleItem) (c : CatalogState),
      ((c.adjustItems items f r a).products pid).stock =
        (c.products pid).stock +
          (if (c.products pid).track_stock then itemsDelta f pid items
           else 0) ∧
      ((c.adjustItems items f r a).products pid).track_stock =
        (c.products pid).track_stock
  | [], c => by simp [CatalogState.adjustItems, itemsDelta]
  | it :: rest, c => by
    have hstep : c.adjustItems (it :: rest) f r a =
        (if (c.products it.product_id).track_stock then
          c.applyAdjust it.product_id (f it) r a
        else c).adjustItems rest f r a := rfl
    rw [hstep]
    by_cases ht : (c.products it.product_id).track_stock
    · rw [if_pos ht]
      obtain ⟨ihs, iht⟩ :=
        adjustItems_effect f r a pid rest
          (c.applyAdjust it.product_id (f it) r a)
      obtain ⟨haps, hapt⟩ :=
        applyAdjust_stock_track c it.product_id (f it) r a pid
      refine ⟨?_, by rw [iht, hapt]⟩
      rw [ihs, haps, hapt]
      simp only [itemsDelta]
      by_cases hp : it.product_id = pid
      · subst hp
        simp [ht]
        omega
      · simp [hp]
    · rw [if_neg ht]
      obtain ⟨ihs, iht⟩ := adjustItems_effect f r a pid rest c
      refine ⟨?_, iht⟩
      rw [ihs]
      simp only [itemsDelta]
      by_cases hp : it.product_id = pid
      · subst hp
        simp [ht]
      · simp [hp]

/-- Deducting then restoring the same quantities nets to zero per product. -/
theorem itemsDelta_neg_cancel (pid : Nat) (items : List SaleItem) :
    itemsDelta (fun it => -((it.quantity : Int))) pid items +
      itemsDelta (fun it => ((it.quantity : Int))) pid items = 0 := by
  induction items with
  | nil => simp [itemsDelta]
  | cons it rest ih =>
    simp only [itemsDelta]
    by_cases hp : it.product_id = pid <;> simp [hp] <;> omega

/-- **C3** (confirmed): completing a pending sale deducts each tracked line
item's quantity and voiding it immediately afterwards restores the same
quantity with the same loop, so every product's stock returns exactly to its
value before `complete_sale`. -/
theorem complete_then_void_restores_stock (sale : Sale) (cat : CatalogState)
    (now now' : Nat) (user reason : String) (sale' : Sale)
    (cat' : CatalogState) (sale'' : Sale) (cat'' : CatalogState)
    (h1 : sale.complete_sale cat now = .ok (sale', cat'))
    (h2 : sale'.void_sale cat' user reason now' = .ok (sale'', cat''))
    (pid : Nat) :
    (cat''.products pid).stock = (cat.products pid).stock := by
  by_cases hst : sale.status = "pending"
  · simp [Sale.complete_sale, hst] at h1
    obtain ⟨hs', hc'⟩ := h1
    have hstatus' : sale'.status = "completed" := by rw [← hs']
    have hitems : sale'.items = sale.items := by rw [← hs']
    have hnv : ¬ sale'.status = "voided" := by
      rw [hstatus']
      decide
    simp [Sale.void_sale, hnv] at h2
    obtain ⟨-, hc''⟩ := h2
    rw [← hc'', ← hc', hitems]
    obtain ⟨s1, t1⟩ := adjustItems_effect
      (fun it => -((it.quantity : Int))) "sale" sale.cashier pid
      sale.items cat
    obtain ⟨s2, -⟩ := adjustItems_effect
      (fun it => ((it.quantity : Int))) "return" user pid sale.items
      (cat.adjustItems sale.items (fun it => -((it.quantity : Int))) "sale"
        sale.cashier)
    rw [s2, s1, t1]
    have hcancel := itemsDelta_neg_cancel pid sale.items
    by_cases htr : (cat.products pid).track_stock <;> simp [htr]
    omega
  · simp [Sale.complete_sale, hst] at h1

/-- A pending sale carrying one tracked line item (2 units of product 1). -/
def saleC3 : Sale :=
  { sale100 with items := [{ product_id := 1, quantity := 2, unit_price := 10,
                             tax_rate := 0, discount := 0, line_total := 20 }] }

/-- `saleC3` after `complete_sale` at time 4. -/
def saleC3done : Sale :=
  { saleC3 with status := "completed", completed_at := some 4 }

/-- The catalog after `complete_sale` deducts `saleC3`'s items. -/
def catC3' : CatalogState :=
  catW.adjustItems saleC3.items (fun it => -((it.quantity : Int))) "sale"
    saleC3.cashier

/-- `saleC3done` after `void_sale` at time 9. -/
def saleC3voided : Sale :=
  { saleC3done with status := "voided", voided_at := some 9,
                    voided_by := some "boss", void_reason := "damaged" }

/-- The catalog after `void_sale` restores `saleC3`'s items. -/
def catC3'' : CatalogState :=
  catC3'.adjustItems saleC3.items (fun it => ((it.quantity : Int))) "return"
    "boss"

/-- Witness for C3: product 1's stock after complete+void equals its stock
before. -/
theorem complete_then_void_restores_stock_witness :
    (catC3''.products 1).stock = (catW.products 1).stock :=
  complete_then_void_restores_stock saleC3 catW 4 9 "boss" "damaged"
    saleC3done catC3' saleC3voided catC3'' rfl rfl 1

/-! ## C2 — rejected requests still commit partial records -/

/-- A customer table holding only the wholesale customer `custW`. -/
def dbW : PosDB :=
  { customersByPhone := fun ph => if ph = "0551" then some custW else none
    catalog := catW, sales := [] }

/-- A create-sale request: one unit of product 1 for the wholesale customer,
with a single payment of 40 against a resulting total of 100. -/
def inpC2 : SaleInput :=
  { customer_phone := "0551", customer_name := "W Ltd", customer_email := ""
    items := [{ product_id := 1, quantity := 1, discount := 0 }]
    payments := [{ amount := 40, method := "cash", amount_tendered := none,
                   change_amount := none }]
    discount := 0, notes := "" }

/-- **C2** (code bug): the claim says a rejected create-sale request leaves
no partially created records.  But `create_sale` signals rejection by
returning a 400 response, which exits `@transaction.atomic` normally and
commits; on this request the wholesale minimum-payment check rejects (40 <
50) *after* the Sale, its SaleItem and its Payment row were created, and all
three rows survive: the committed database holds one pending sale with one
item row and one payment row. -/
theorem create_sale_rejection_commits_partial_records :
    (create_sale dbW "cash1" "T1" inpC2 0).2 =
      .rejected (.wholesaleMinPayment 50) ∧
    ((create_sale dbW "cash1" "T1" inpC2 0).1.sales.map
        (fun s => (s.status, s.items.length, s.payments.length))) =
      [("pending", 1, 1)] := by
  norm_num [create_sale, dbW, inpC2, custW, catW, prodW, getOrCreateCustomer,
    createItems, Product.can_sell, Product.get_price_for_customer,
    Sale.calculate_totals, SaleItem.tax_amount, settleAndComplete,
    totalPaymentOf, PaymentInput.toRow]

/-! ## C7 — sequential invoice numbers -/

/-- Splitting off the last generated number. -/
theorem range'_one_concat (n : Nat) :
    List.range' 1 (n + 1) = List.range' 1 n ++ [n + 1] := by
  simpa [Nat.add_comm] using @List.range'_concat 1 1 n

/-- Four-digit zero-padded numerals compare lexicographically like the
numbers they denote (within the 4-digit range). -/
theorem lexLt_format04 (a b : Nat) (hab : a < b) (hb : b ≤ 9999) :
    lexLt (format04 a) (format04 b) = true := by
  have ha' : a < 10000 := by omega
  have hb' : b < 10000 := by omega
  simp only [format04, if_pos ha', if_pos hb', lexLt]
  split_ifs <;> first | rfl | (exfalso; omega)

/-- `int(...)` inverts the 4-digit padding. -/
theorem fromDigits_format04 (n : Nat) (hn : n ≤ 9999) :
    fromDigits (format04 n) = n := by
  have hn' : n < 10000 := by omega
  simp only [format04, if_pos hn', fromDigits, List.foldl_cons, List.foldl_nil]
  omega

/-- The SQL `Max` over the first `n` generated numbers is the `n`-th one. -/
theorem listMax_format04_seq (n : Nat) (hn : n ≤ 9999) :
    listMax ((List.range' 1 n).map format04) =
      if n = 0 then none else some (format04 n) := by
  induction n with
  | zero => simp [listMax]
  | succ m ih =>
    rw [range'_one_concat, List.map_append]
    simp only [List.map_cons, List.map_nil]
    have hm : m ≤ 9999 := by omega
    have hsplit : ∀ (l : List (List Nat)) (x : List Nat),
        listMax (l ++ [x]) =
          (match listMax l with
           | none => some x
           | some mx => if lexLt mx x then some x else some mx) := by
      intro l x
      simp only [listMax, List.foldl_append, List.foldl_cons, List.foldl_nil]
    rw [hsplit, ih hm]
    by_cases hm0 : m = 0
    · subst hm0
      simp
    · rw [if_neg hm0]
      have hlt : lexLt (format04 m) (format04 (m + 1)) = true :=
        lexLt_format04 m (m + 1) (by omega) (by omega)
      simp only [hlt, if_true, if_neg (Nat.succ_ne_zero m)]

/-- **C7** (confirmed, within the claimed 4-digit format): starting from an
empty year, the `n+1`-st generated number extends the stored maximum by one
(`format04 (n+1)` after numbers 1..n), and `n ≤ 9999` sequential creations
store exactly the zero-padded suffixes of 1, 2, ..., n — strictly increasing
integers with no gaps, starting at 1.  (Past suffix 9999 the `%04d` format
widens to five digits and the claimed `NNNN` form itself no longer exists.) -/
theorem generate_invoice_number_sequential :
    (∀ n : Nat, n < 9999 →
      generate_invoice_number ((List.range' 1 n).map format04) =
        format04 (n + 1)) ∧
    (∀ n : Nat, n ≤ 9999 →
      invoiceNumbersSeq n = (List.range' 1 n).map format04 ∧
      (invoiceNumbersSeq n).map fromDigits = List.range' 1 n) := by
  have hgen : ∀ n : Nat, n < 9999 →
      generate_invoice_number ((List.range' 1 n).map format04) =
        format04 (n + 1) := by
    intro n hn
    rw [generate_invoice_number, listMax_format04_seq n (by omega)]
    by_cases hn0 : n = 0
    · subst hn0
      rfl
    · rw [if_neg hn0]
      show format04 (fromDigits (format04 n) + 1) = format04 (n + 1)
      rw [fromDigits_format04 n (by omega)]
  have hseq : ∀ n : Nat, n ≤ 9999 →
      invoiceNumbersSeq n = (List.range' 1 n).map format04 := by
    intro n
    induction n with
    | zero => intro _; rfl
    | succ m ih =>
      intro hm
      have hprev := ih (by omega)
      show invoiceNumbersSeq m ++ [generate_invoice_number
        (invoiceNumbersSeq m)] = _
      rw [hprev, hgen m (by omega), range'_one_concat, List.map_append]
      simp
  refine ⟨hgen, fun n hn => ⟨hseq n hn, ?_⟩⟩
  rw [hseq n hn, List.map_map]
  have : ∀ k ∈ List.range' 1 n, (fromDigits ∘ format04) k = id k := by
    intro k hk
    have hk' := List.mem_range'_1.mp hk
    simp only [Function.comp_apply, id_eq]
    exact fromDigits_format04 k (by omega)
  rw [List.map_congr_left this, List.map_id]

/-- Witness for C7 at `n = 3`: the fourth number extends `0001 0002 0003` to
`0004`, and three sequential creations store suffixes 1, 2, 3. -/
theorem generate_invoice_number_sequential_witness :
    generate_invoice_number ((List.range' 1 3).map format04) = format04 4 ∧
    invoiceNumbersSeq 3 = (List.range' 1 3).map format04 ∧
    (invoiceNumbersSeq 3).map fromDigits = List.range' 1 3 :=
  ⟨generate_invoice_number_sequential.1 3 (by decide),
   (generate_invoice_number_sequential.2 3 (by decide)).1,
   (generate_invoice_number_sequential.2 3 (by decide)).2⟩
